import Mathlib

/-!
Verification development for the field-workforce tracking application.

The repository contains two parallel implementations of the same service:
an Express backend (backend/routes/checkin.js, routes/reports.js) backed by
SQLite, and a Next.js app-router variant (app/api routes) backed by the
in-memory data layer in lib/db.ts.  Both are embedded below.

Modelling conventions:
  - JavaScript numbers are modelled as exact rationals in the data layer and
    the route handlers, so every route-level definition is computable and
    decidable.  The haversine geodistance function uses transcendental
    functions, so it is modelled over the real numbers; the route pipeline
    takes the distance function as an explicit parameter.
  - Timestamps are rationals measured in hours, so that the difference of a
    checkout and a checkin time is directly "hours worked" as in the code
    (the code divides a millisecond difference by 3600000).  The calendar
    day of a timestamp (the SQL DATE function) is the floor of time / 24.
  - SQL result sets and the in-memory arrays of lib/db.ts are lists; SQL
    WHERE clauses are filters; INNER JOIN by primary key is a find-based
    lookup (ids are unique in the database).
  - The JavaScript truthiness tests of the routes (for example
    `latitude && longitude`) are modelled exactly: an optional number is
    truthy when it is present and nonzero.
-/

/-! ## Geodistance (lib/db.ts calculateDistance, checkin.js calculateDistance)

The JavaScript code computes with IEEE doubles; the embedding idealises the
arithmetic over the real numbers, keeping the exact algebraic structure of
the source (haversine formula, Earth radius 6371 km, Math.atan2).
-/

noncomputable def toRad (deg : ℝ) : ℝ := deg * (Real.pi / 180)

/-- JavaScript Math.atan2, defined piecewise as in the ECMAScript standard. -/
noncomputable def atan2 (y x : ℝ) : ℝ :=
  if 0 < x then Real.arctan (y / x)
  else if x < 0 then
    (if 0 ≤ y then Real.arctan (y / x) + Real.pi else Real.arctan (y / x) - Real.pi)
  else if 0 < y then Real.pi / 2
  else if y < 0 then -(Real.pi / 2)
  else 0

/-- Haversine distance in kilometers, as in lib/db.ts and
backend/routes/checkin.js (`calculateDistance`). -/
noncomputable def calculateDistance (lat1 lon1 lat2 lon2 : ℝ) : ℝ :=
  let R : ℝ := 6371
  let dLat := toRad (lat2 - lat1)
  let dLon := toRad (lon2 - lon1)
  let a := Real.sin (dLat / 2) * Real.sin (dLat / 2) +
    Real.cos (toRad lat1) * Real.cos (toRad lat2) *
    (Real.sin (dLon / 2) * Real.sin (dLon / 2))
  let c := 2 * atan2 (Real.sqrt a) (Real.sqrt (1 - a))
  R * c

/-- C7: for every point, the geodistance from the point to itself is 0, and
the geodistance function is symmetric in its two points. -/
theorem calculateDistance_self_zero_and_swap :
    (∀ lat lon : ℝ, calculateDistance lat lon lat lon = 0) ∧
    (∀ a1 o1 a2 o2 : ℝ, calculateDistance a1 o1 a2 o2 = calculateDistance a2 o2 a1 o1) := by
  constructor
  · intro lat lon
    simp [calculateDistance, toRad, atan2, Real.sqrt_one, Real.arctan_zero]
  · intro a1 o1 a2 o2
    have hsin : ∀ x y : ℝ,
        Real.sin (toRad (x - y) / 2) * Real.sin (toRad (x - y) / 2) =
        Real.sin (toRad (y - x) / 2) * Real.sin (toRad (y - x) / 2) := by
      intro x y
      have h : toRad (x - y) = -toRad (y - x) := by unfold toRad; ring
      rw [h, neg_div, Real.sin_neg]; ring
    simp only [calculateDistance]
    rw [hsin a2 a1, hsin o2 o1, mul_comm (Real.cos (toRad a1)) (Real.cos (toRad a2))]

/-! ## Data model (lib/db.ts interfaces, SQLite schema) -/

inductive Role where
  | employee
  | manager
deriving DecidableEq, Repr

inductive Status where
  | checked_in
  | checked_out
deriving DecidableEq, Repr

structure User where
  id : ℕ
  name : String
  email : String
  password : String
  role : Role
  manager_id : Option ℕ
deriving DecidableEq, Repr

structure Client where
  id : ℕ
  name : String
  address : String
  latitude : Option ℚ
  longitude : Option ℚ
deriving DecidableEq, Repr

structure EmployeeClient where
  id : ℕ
  employee_id : ℕ
  client_id : ℕ
  assigned_date : String
deriving DecidableEq, Repr

structure Checkin where
  id : ℕ
  employee_id : ℕ
  client_id : ℕ
  checkin_time : ℚ
  checkout_time : Option ℚ
  latitude : Option ℚ
  longitude : Option ℚ
  distance_from_client : Option ℚ
  notes : Option String
  status : Status
deriving DecidableEq, Repr

structure Store where
  users : List User
  clients : List Client
  employeeClients : List EmployeeClient
  checkins : List Checkin
deriving DecidableEq, Repr

/-- Seed data of lib/db.ts.  Timestamps are hours since the Unix epoch
(2024-01-15 is day 19737, so 2024-01-15T09:15 is 19737 * 24 + 9.25). -/
def seedStore : Store :=
  { users :=
      [ { id := 1, name := "Amit Sharma", email := "manager@unolo.com",
          password := "password123", role := .manager, manager_id := none },
        { id := 2, name := "Rahul Kumar", email := "rahul@unolo.com",
          password := "password123", role := .employee, manager_id := some 1 },
        { id := 3, name := "Priya Singh", email := "priya@unolo.com",
          password := "password123", role := .employee, manager_id := some 1 },
        { id := 4, name := "Vikram Patel", email := "vikram@unolo.com",
          password := "password123", role := .employee, manager_id := some 1 } ],
    clients :=
      [ { id := 1, name := "ABC Corp", address := "Cyber City, Gurugram",
          latitude := some 28.4946, longitude := some 77.0887 },
        { id := 2, name := "XYZ Ltd", address := "Sector 44, Gurugram",
          latitude := some 28.4595, longitude := some 77.0266 },
        { id := 3, name := "Tech Solutions", address := "DLF Phase 3, Gurugram",
          latitude := some 28.4947, longitude := some 77.0952 },
        { id := 4, name := "Global Services", address := "Udyog Vihar, Gurugram",
          latitude := some 28.5011, longitude := some 77.0838 },
        { id := 5, name := "Innovate Inc", address := "Sector 18, Noida",
          latitude := some 28.5707, longitude := some 77.3219 } ],
    employeeClients :=
      [ { id := 1, employee_id := 2, client_id := 1, assigned_date := "2024-01-01" },
        { id := 2, employee_id := 2, client_id := 2, assigned_date := "2024-01-01" },
        { id := 3, employee_id := 2, client_id := 3, assigned_date := "2024-01-15" },
        { id := 4, employee_id := 3, client_id := 2, assigned_date := "2024-01-01" },
        { id := 5, employee_id := 3, client_id := 4, assigned_date := "2024-01-01" },
        { id := 6, employee_id := 4, client_id := 1, assigned_date := "2024-01-10" },
        { id := 7, employee_id := 4, client_id := 5, assigned_date := "2024-01-10" } ],
    checkins :=
      [ { id := 1, employee_id := 2, client_id := 1, checkin_time := 473697.25,
          checkout_time := some 473699.5, latitude := some 28.4946,
          longitude := some 77.0887, distance_from_client := some 0.05,
          notes := some ("Regular visit"), status := .checked_out },
        { id := 2, employee_id := 2, client_id := 2, checkin_time := 473700,
          checkout_time := some 473702, latitude := some 28.4595,
          longitude := some 77.0266, distance_from_client := some 0.02,
          notes := some ("Product demo"), status := .checked_out },
        { id := 3, employee_id := 2, client_id := 3, checkin_time := 473703,
          checkout_time := some 473705.5, latitude := some 28.4947,
          longitude := some 77.0952, distance_from_client := some 0.03,
          notes := some ("Follow up meeting"), status := .checked_out },
        { id := 4, employee_id := 3, client_id := 2, checkin_time := 473697.5,
          checkout_time := some 473700, latitude := some 28.4595,
          longitude := some 77.0266, distance_from_client := some 0.01,
          notes := some ("Contract discussion"), status := .checked_out },
        { id := 5, employee_id := 3, client_id := 4, checkin_time := 473701,
          checkout_time := some 473704, latitude := some 28.5011,
          longitude := some 77.0838, distance_from_client := some 0.04,
          notes := some ("New requirements"), status := .checked_out } ] }

/-! ## Shared helpers of the route handlers -/

/-- Math.round(x * 100) / 100: round to 2 decimal places (JavaScript
Math.round rounds half towards positive infinity). -/
def round2 (q : ℚ) : ℚ := ((Int.floor (q * 100 + 1 / 2) : ℤ) : ℚ) / 100

/-- SQL DATE() of a timestamp measured in hours: the calendar day. -/
def dateOf (t : ℚ) : ℤ := Int.floor (t / 24)

/-- Predicate of `WHERE employee_id = ? AND status = 'checked_in'` and of
lib/db.ts `getActiveByEmployeeId`. -/
def isActiveFor (e : ℕ) (c : Checkin) : Bool :=
  decide (c.employee_id = e ∧ c.status = Status.checked_in)

/-- `SELECT * FROM checkins WHERE employee_id = ? AND status = 'checked_in'`. -/
def activeRows (s : Store) (e : ℕ) : List Checkin := s.checkins.filter (isActiveFor e)

/-- Number of active (checked_in) records of an employee. -/
def activeCount (s : Store) (e : ℕ) : ℕ := (activeRows s e).length

/-- lib/db.ts `checkins.getActiveByEmployeeId` / the Next.js `db.getActiveCheckin`:
first checked_in record of the employee. -/
def getActiveCheckin (s : Store) (e : ℕ) : Option Checkin := s.checkins.find? (isActiveFor e)

/-- `SELECT * FROM employee_clients WHERE employee_id = ? AND client_id = ?`. -/
def assignedRows (s : Store) (e cid : ℕ) : List EmployeeClient :=
  s.employeeClients.filter (fun ec => decide (ec.employee_id = e ∧ ec.client_id = cid))

/-- lib/db.ts `employeeClients.isAssigned`. -/
def isAssigned (s : Store) (e cid : ℕ) : Bool :=
  s.employeeClients.any (fun ec => decide (ec.employee_id = e ∧ ec.client_id = cid))

/-- JavaScript truthiness of an optional number: present and nonzero. -/
def truthy (x : Option ℚ) : Bool :=
  match x with
  | none => false
  | some v => decide (v ≠ 0)

/-- JavaScript `notes || null`: an empty string collapses to null. -/
def notesOrNull (n : Option String) : Option String :=
  match n with
  | none => none
  | some v => if v = "" then none else some v

/-- JavaScript `latitude || null` applied to a number: zero collapses to null. -/
def zeroToNull (x : Option ℚ) : Option ℚ :=
  match x with
  | none => none
  | some v => if v = 0 then none else some v

/-! ## Check-in creation -/

/-- Request body of POST /api/checkin: client_id, optional coordinates,
optional notes.  A missing client_id is modelled as 0 (falsy in the source). -/
structure CheckinReq where
  client_id : ℕ
  latitude : Option ℚ
  longitude : Option ℚ
  notes : Option String
deriving DecidableEq, Repr

inductive CreateRes where
  | created (id : ℕ) (distance_from_client : Option ℚ) (distance_warning : Bool)
  | err (status : ℕ) (msg : String)
deriving DecidableEq, Repr

/-- Distance block shared by both check-in routes
(backend/routes/checkin.js lines 80-100, Next.js route lines 190-206):
if the caller coordinates and the client coordinates are all truthy, compute
the haversine distance, round to 2 decimals, and warn when it exceeds 0.5 km.
`dist` is the calculateDistance function, passed as a parameter since the
route logic is otherwise exact rational arithmetic. -/
def distanceBlock (dist : ℚ → ℚ → ℚ → ℚ → ℚ) (client : Client) (req : CheckinReq) :
    Option ℚ × Bool :=
  if truthy req.latitude ∧ truthy req.longitude ∧
      truthy client.latitude ∧ truthy client.longitude then
    match req.latitude, req.longitude, client.latitude, client.longitude with
    | some la, some lo, some ca, some co =>
      let d := round2 (dist la lo ca co)
      (some d, decide ((1 : ℚ) / 2 < d))
    | _, _, _, _ => (none, false)
  else (none, false)

/-- POST / of backend/routes/checkin.js (first variant, lines 42-123):
validate client_id, check the employee-client assignment (403), check for an
active check-in (400), compute the optional distance, insert the record. -/
def createCheckin (dist : ℚ → ℚ → ℚ → ℚ → ℚ) (now : ℚ) (s : Store) (e : ℕ)
    (req : CheckinReq) : CreateRes × Store :=
  if req.client_id = 0 then
    (.err 400 ("Client ID is required"), s)
  else if (assignedRows s e req.client_id).length = 0 then
    (.err 403 ("You are not assigned to this client"), s)
  else if 0 < (activeRows s e).length then
    (.err 400 ("You already have an active check-in. Please checkout first."), s)
  else
    let dw :=
      match s.clients.find? (fun c => c.id = req.client_id) with
      | some client => distanceBlock dist client req
      | none => (none, false)
    let newRec : Checkin :=
      { id := s.checkins.length + 1, employee_id := e, client_id := req.client_id,
        checkin_time := now, checkout_time := none,
        latitude := req.latitude, longitude := req.longitude,
        distance_from_client := dw.1, notes := notesOrNull req.notes,
        status := .checked_in }
    (.created newRec.id dw.1 dw.2, { s with checkins := s.checkins ++ [newRec] })

/-- Latitude range validation of the Next.js route. -/
def latInvalid (x : Option ℚ) : Bool :=
  match x with
  | some la => decide (la < -90 ∨ 90 < la)
  | none => false

/-- Longitude range validation of the Next.js route. -/
def lngInvalid (x : Option ℚ) : Bool :=
  match x with
  | some lo => decide (lo < -180 ∨ 180 < lo)
  | none => false

/-- Notes length validation of the Next.js route (at most 500 characters). -/
def notesInvalid (n : Option String) : Bool :=
  match n with
  | some v => decide (500 < v.length)
  | none => false

/-- POST of the Next.js check-in route (app/api variant): validates the
request, rejects a duplicate active check-in (400), requires the client to
exist (400) and inserts the record.  Note: this variant performs no
employee-client assignment check.  The flat db helpers it calls
(getActiveCheckin, getClientById, createCheckin) follow lib/db.ts; per the
data-store contract the created row gets status checked_in and the current
timestamp. -/
def nextCreate (dist : ℚ → ℚ → ℚ → ℚ → ℚ) (now : ℚ) (s : Store) (e : ℕ)
    (req : CheckinReq) : CreateRes × Store :=
  if req.client_id = 0 then
    (.err 400 ("Please select a client before checking in"), s)
  else if latInvalid req.latitude then
    (.err 400 ("Invalid latitude value. Must be between -90 and 90"), s)
  else if lngInvalid req.longitude then
    (.err 400 ("Invalid longitude value. Must be between -180 and 180"), s)
  else if notesInvalid req.notes then
    (.err 400 ("Notes cannot exceed 500 characters"), s)
  else if (getActiveCheckin s e).isSome then
    (.err 400 ("You already have an active check-in. Please checkout first."), s)
  else
    match s.clients.find? (fun c => c.id = req.client_id) with
    | none => (.err 400 ("Selected client does not exist"), s)
    | some client =>
      let dw := distanceBlock dist client req
      let newRec : Checkin :=
        { id := s.checkins.length + 1, employee_id := e, client_id := req.client_id,
          checkin_time := now, checkout_time := none,
          latitude := zeroToNull req.latitude, longitude := zeroToNull req.longitude,
          distance_from_client := dw.1, notes := notesOrNull req.notes,
          status := .checked_in }
      (.created newRec.id dw.1 dw.2, { s with checkins := s.checkins ++ [newRec] })

/-! ## Checkout -/

inductive CheckoutRes where
  | ok
  | err (status : ℕ) (msg : String)
deriving DecidableEq, Repr

/-- Set checkout_time to the current timestamp and status to checked_out
(the UPDATE of the checkout routes and lib/db.ts `checkins.checkout`). -/
def setOut (now : ℚ) (c : Checkin) : Checkin :=
  { c with checkout_time := some now, status := .checked_out }

/-- `ORDER BY checkin_time DESC LIMIT 1` over a result set. -/
def mostRecent (l : List Checkin) : Option Checkin :=
  l.foldl (fun acc c =>
    match acc with
    | none => some c
    | some b => if b.checkin_time < c.checkin_time then some c else some b) none

/-- `UPDATE checkins SET checkout_time = now, status = checked_out
WHERE id = ? AND status = 'checked_in'` (second checkout variant). -/
def sqlCheckout (now : ℚ) (cid : ℕ) (l : List Checkin) : List Checkin :=
  l.map (fun x => if x.id = cid ∧ x.status = Status.checked_in then setOut now x else x)

/-- Update the first record matching a predicate (lib/db.ts mutates the
record returned by Array.find). -/
def updateFirst (p : Checkin → Bool) (f : Checkin → Checkin) : List Checkin → List Checkin
  | [] => []
  | x :: xs => if p x then f x :: xs else x :: updateFirst p f xs

/-- lib/db.ts `checkins.checkout(checkinId)`. -/
def dbCheckout (now : ℚ) (s : Store) (cid : ℕ) : Store :=
  { s with checkins := updateFirst (fun c => c.id = cid) (setOut now) s.checkins }

/-- PUT /checkout of backend/routes/checkin.js, first variant (lines 126-148):
selects the most recent check-in of the employee REGARDLESS of status and
updates it. -/
def checkoutV1 (now : ℚ) (s : Store) (e : ℕ) : CheckoutRes × Store :=
  match mostRecent (s.checkins.filter (fun c => c.employee_id = e)) with
  | none => (.err 404 ("No active check-in found"), s)
  | some c =>
    (.ok, { s with checkins :=
        s.checkins.map (fun x => if x.id = c.id then setOut now x else x) })

/-- PUT /checkout of backend/routes/checkin.js, second variant (lines
389-434): selects the most recent ACTIVE check-in, 404 when there is none. -/
def checkoutV2 (now : ℚ) (s : Store) (e : ℕ) : CheckoutRes × Store :=
  match mostRecent (activeRows s e) with
  | none => (.err 404 ("No active check-in found"), s)
  | some c => (.ok, { s with checkins := sqlCheckout now c.id s.checkins })

/-- POST checkout of the Next.js route (app/api variant): finds the active
check-in via db.getActiveCheckin and checks it out; responds 400 (not 404)
when there is none. -/
def nextCheckout (now : ℚ) (s : Store) (e : ℕ) : CheckoutRes × Store :=
  match getActiveCheckin s e with
  | none => (.err 400 ("No active check-in found to checkout from"), s)
  | some c => (.ok, dbCheckout now s c.id)

/-! ## Remaining store mutations (for reachability) -/

/-- lib/db.ts `employeeClients.assign`. -/
def assignOp (s : Store) (e cid : ℕ) (today : String) : Store :=
  { s with employeeClients := s.employeeClients ++
      [{ id := s.employeeClients.length + 1, employee_id := e, client_id := cid,
         assigned_date := today }] }

/-- lib/db.ts `clients.create`. -/
def createClientOp (s : Store) (name addr : String) (la lo : Option ℚ) : Store :=
  { s with clients := s.clients ++
      [{ id := s.clients.length + 1, name := name, address := addr,
         latitude := la, longitude := lo }] }

/-- One step of the system: any mutation the repository can perform on the
data store. -/
inductive Step : Store → Store → Prop
  | create (dist : ℚ → ℚ → ℚ → ℚ → ℚ) (now : ℚ) (s : Store) (e : ℕ) (req : CheckinReq) :
      Step s (createCheckin dist now s e req).2
  | createNext (dist : ℚ → ℚ → ℚ → ℚ → ℚ) (now : ℚ) (s : Store) (e : ℕ) (req : CheckinReq) :
      Step s (nextCreate dist now s e req).2
  | checkout1 (now : ℚ) (s : Store) (e : ℕ) : Step s (checkoutV1 now s e).2
  | checkout2 (now : ℚ) (s : Store) (e : ℕ) : Step s (checkoutV2 now s e).2
  | checkoutNx (now : ℚ) (s : Store) (e : ℕ) : Step s (nextCheckout now s e).2
  | checkoutDb (now : ℚ) (s : Store) (cid : ℕ) : Step s (dbCheckout now s cid)
  | assign (s : Store) (e cid : ℕ) (today : String) : Step s (assignOp s e cid today)
  | newClient (s : Store) (name addr : String) (la lo : Option ℚ) :
      Step s (createClientOp s name addr la lo)

/-- States of the data store reachable from the seeded database. -/
inductive Reachable : Store → Prop
  | seed : Reachable seedStore
  | step {s s' : Store} : Reachable s → Step s s' → Reachable s'

/-! ## Daily summary report (routes/reports.js GET /daily-summary) -/

/-- A row of the report query: a check-in joined (INNER JOIN by primary key)
with its employee and its client. -/
structure FetchedRow where
  id : ℕ
  employee_id : ℕ
  client_id : ℕ
  checkin_time : ℚ
  checkout_time : Option ℚ
  latitude : Option ℚ
  longitude : Option ℚ
  distance_from_client : Option ℚ
  notes : Option String
  status : Status
  employee_name : String
  employee_email : String
  client_name : String
  client_address : String
deriving DecidableEq, Repr

/-- Hours worked of one fetched check-in: checkout minus checkin when the
checkout time is present, else 0 (timestamps are already in hours). -/
def hoursOfRow (c : FetchedRow) : ℚ :=
  match c.checkout_time with
  | some t => t - c.checkin_time
  | none => 0

/-- The optional `AND ch.employee_id = ?` clause. -/
def filtOk (filt : Option ℕ) (e : ℕ) : Bool :=
  match filt with
  | none => true
  | some f => decide (e = f)

/-- One row of the report query: present when the join succeeds and the WHERE
clause (manager of the employee, calendar date, optional employee filter)
accepts the check-in. -/
def fetchKeep (s : Store) (m : ℕ) (date : ℤ) (filt : Option ℕ) (c : Checkin) :
    Option FetchedRow :=
  match s.users.find? (fun u => u.id = c.employee_id),
        s.clients.find? (fun cl => cl.id = c.client_id) with
  | some u, some cl =>
    if u.manager_id = some m ∧ dateOf c.checkin_time = date ∧
        filtOk filt c.employee_id = true then
      some { id := c.id, employee_id := c.employee_id, client_id := c.client_id,
             checkin_time := c.checkin_time, checkout_time := c.checkout_time,
             latitude := c.latitude, longitude := c.longitude,
             distance_from_client := c.distance_from_client, notes := c.notes,
             status := c.status, employee_name := u.name, employee_email := u.email,
             client_name := cl.name, client_address := cl.address }
    else none
  | _, _ => none

/-- `ORDER BY ch.employee_id, ch.checkin_time`. -/
def fetchOrd (a b : FetchedRow) : Prop :=
  a.employee_id < b.employee_id ∨
    (a.employee_id = b.employee_id ∧ a.checkin_time ≤ b.checkin_time)

instance : DecidableRel fetchOrd := fun x y =>
  inferInstanceAs (Decidable (x.employee_id < y.employee_id ∨
    (x.employee_id = y.employee_id ∧ x.checkin_time ≤ y.checkin_time)))

/-- The report query: all team check-ins of the date (optionally filtered to
one employee), ordered by employee then checkin time. -/
def dailyFetch (s : Store) (m : ℕ) (date : ℤ) (filt : Option ℕ) : List FetchedRow :=
  List.insertionSort fetchOrd (s.checkins.filterMap (fetchKeep s m date filt))

/-- JavaScript Set.add on an insertion-ordered list. -/
def addUnique {α : Type} [DecidableEq α] (l : List α) (x : α) : List α :=
  if x ∈ l then l else l ++ [x]

/-- One entry of the final employee breakdown. -/
structure DetailRow where
  id : ℕ
  client_id : ℕ
  client_name : String
  client_address : String
  checkin_time : ℚ
  checkout_time : Option ℚ
  hours_worked : ℚ
  distance_from_client : Option ℚ
  notes : Option String
  status : Status
deriving DecidableEq, Repr

/-- The per-check-in detail object pushed onto employee.checkins. -/
def detailOf (c : FetchedRow) : DetailRow :=
  { id := c.id, client_id := c.client_id, client_name := c.client_name,
    client_address := c.client_address, checkin_time := c.checkin_time,
    checkout_time := c.checkout_time, hours_worked := round2 (hoursOfRow c),
    distance_from_client := c.distance_from_client, notes := c.notes,
    status := c.status }

/-- The per-employee accumulator object of the employeeMap. -/
structure AccEntry where
  employee_id : ℕ
  employee_name : String
  employee_email : String
  total_checkins : ℕ
  hours_worked : ℚ
  client_names : List String
  total_distance : ℚ
  distance_count : ℕ
  checkins : List DetailRow
deriving DecidableEq, Repr

/-- The object a team member is initialised with. -/
def initEntry (u : User) : AccEntry :=
  { employee_id := u.id, employee_name := u.name, employee_email := u.email,
    total_checkins := 0, hours_worked := 0, client_names := [],
    total_distance := 0, distance_count := 0, checkins := [] }

/-- Updating a member entry with one of its check-ins (the body of the
checkins.forEach loop). -/
def updEntry (a : AccEntry) (c : FetchedRow) : AccEntry :=
  { a with
    total_checkins := a.total_checkins + 1,
    hours_worked := a.hours_worked + hoursOfRow c,
    client_names := addUnique a.client_names c.client_name,
    checkins := a.checkins ++ [detailOf c],
    total_distance :=
      match c.distance_from_client with
      | some d => a.total_distance + d
      | none => a.total_distance,
    distance_count :=
      match c.distance_from_client with
      | some _ => a.distance_count + 1
      | none => a.distance_count }

/-- Team-wide running totals of the forEach loop. -/
structure Totals where
  total_checkins : ℕ
  total_hours : ℚ
  unique_clients : List ℕ
  total_distance : ℚ
  distance_count : ℕ
deriving DecidableEq, Repr

def zeroTotals : Totals :=
  { total_checkins := 0, total_hours := 0, unique_clients := [],
    total_distance := 0, distance_count := 0 }

def updTotals (t : Totals) (c : FetchedRow) : Totals :=
  { total_checkins := t.total_checkins + 1,
    total_hours := t.total_hours + hoursOfRow c,
    unique_clients := addUnique t.unique_clients c.client_id,
    total_distance :=
      match c.distance_from_client with
      | some d => t.total_distance + d
      | none => t.total_distance,
    distance_count :=
      match c.distance_from_client with
      | some _ => t.distance_count + 1
      | none => t.distance_count }

/-- The JavaScript Map, as an insertion-ordered association list. -/
def memKey (k : ℕ) (m : List (ℕ × AccEntry)) : Bool := m.any (fun p => p.1 = k)

def mapGet (k : ℕ) (m : List (ℕ × AccEntry)) : Option AccEntry :=
  (m.find? (fun p => p.1 = k)).map Prod.snd

def mapSet (k : ℕ) (v : AccEntry) (m : List (ℕ × AccEntry)) : List (ℕ × AccEntry) :=
  if memKey k m then m.map (fun p => if p.1 = k then (k, v) else p)
  else m ++ [(k, v)]

/-- Skip condition of the team-member initialisation loop: with an employee
filter, members other than the filtered employee get no entry. -/
def filtSkip (filt : Option ℕ) (u : User) : Bool :=
  match filt with
  | none => false
  | some f => decide (u.id ≠ f)

/-- Initialise the employeeMap with every (kept) team member. -/
def initMap (team : List User) (filt : Option ℕ) : List (ℕ × AccEntry) :=
  team.foldl (fun m u => if filtSkip filt u then m else mapSet u.id (initEntry u) m) []

/-- The body of the checkins.forEach loop: look the employee up in the map;
when absent skip the row entirely, otherwise update the member entry and the
team totals. -/
def stepAll (acc : List (ℕ × AccEntry) × Totals) (c : FetchedRow) :
    List (ℕ × AccEntry) × Totals :=
  match mapGet c.employee_id acc.1 with
  | none => acc
  | some a => (mapSet c.employee_id (updEntry a c) acc.1, updTotals acc.2 c)

/-- One entry of the response employee_breakdown. -/
structure BEntry where
  employee_id : ℕ
  employee_name : String
  employee_email : String
  total_checkins : ℕ
  hours_worked : ℚ
  clients_visited : List String
  average_distance : Option ℚ
  checkins : List DetailRow
deriving DecidableEq, Repr

/-- Finalising a member entry for the response. -/
def finalizeEntry (a : AccEntry) : BEntry :=
  { employee_id := a.employee_id, employee_name := a.employee_name,
    employee_email := a.employee_email, total_checkins := a.total_checkins,
    hours_worked := round2 a.hours_worked, clients_visited := a.client_names,
    average_distance :=
      if 0 < a.distance_count then
        some (round2 (a.total_distance / (a.distance_count : ℚ)))
      else none,
    checkins := a.checkins }

/-- Sort comparator of the final breakdown:
`(a, b) => b.total_checkins - a.total_checkins` (descending). -/
def byCheckinsDesc (a b : BEntry) : Prop := b.total_checkins ≤ a.total_checkins

instance : DecidableRel byCheckinsDesc := fun x y =>
  inferInstanceAs (Decidable (y.total_checkins ≤ x.total_checkins))

instance : IsTotal BEntry byCheckinsDesc :=
  ⟨fun a b => Nat.le_total b.total_checkins a.total_checkins⟩

instance : IsTrans BEntry byCheckinsDesc :=
  ⟨fun _ _ _ h1 h2 => Nat.le_trans h2 h1⟩

structure TeamSummary where
  total_employees : ℕ
  employees_with_checkins : ℕ
  total_checkins : ℕ
  total_hours_worked : ℚ
  unique_clients_visited : ℕ
  average_distance_from_client : Option ℚ
deriving DecidableEq, Repr

structure DailyData where
  date : ℤ
  team_summary : TeamSummary
  employee_breakdown : List BEntry
deriving DecidableEq, Repr

/-- GET /api/reports/daily-summary (routes/reports.js).  The date has already
passed the YYYY-MM-DD string validation and is given as a calendar day; the
optional employee filter likewise.  An empty team short-circuits to an
all-zero summary; otherwise the team check-ins of the date are fetched and
aggregated per employee and team-wide, and the breakdown is sorted by
total_checkins descending. -/
def dailySummary (s : Store) (m : ℕ) (date : ℤ) (filt : Option ℕ) : DailyData :=
  let team := s.users.filter (fun u => u.manager_id = some m)
  if team.isEmpty then
    { date := date,
      team_summary :=
        { total_employees := 0, employees_with_checkins := 0, total_checkins := 0,
          total_hours_worked := 0, unique_clients_visited := 0,
          average_distance_from_client := none },
      employee_breakdown := [] }
  else
    let fetched := dailyFetch s m date filt
    let res := fetched.foldl stepAll (initMap team filt, zeroTotals)
    let breakdown := res.1.map (fun p => finalizeEntry p.2)
    let ewc := (res.1.filter (fun p => 0 < p.2.total_checkins)).length
    { date := date,
      team_summary :=
        { total_employees := match filt with | some _ => 1 | none => team.length,
          employees_with_checkins := ewc,
          total_checkins := res.2.total_checkins,
          total_hours_worked := round2 res.2.total_hours,
          unique_clients_visited := res.2.unique_clients.length,
          average_distance_from_client :=
            if 0 < res.2.distance_count then
              some (round2 (res.2.total_distance / (res.2.distance_count : ℚ)))
            else none },
      employee_breakdown := List.insertionSort byCheckinsDesc breakdown }

/-! ## Relations and fixtures used by the statements -/

/-- Frame relation of a checkout UPDATE: a record is either untouched, or
exactly its checkout_time (set to the current timestamp) and its status
(set to checked_out) changed, every other field equal. -/
def checkoutFrame (now : ℚ) (r r' : Checkin) : Prop :=
  r' = r ∨
    (r'.checkout_time = some now ∧ r'.status = Status.checked_out ∧
     r'.id = r.id ∧ r'.employee_id = r.employee_id ∧ r'.client_id = r.client_id ∧
     r'.checkin_time = r.checkin_time ∧ r'.latitude = r.latitude ∧
     r'.longitude = r.longitude ∧ r'.distance_from_client = r.distance_from_client ∧
     r'.notes = r.notes)

/-- Keys of the employeeMap, in insertion order. -/
def mapKeys (m : List (ℕ × AccEntry)) : List ℕ := m.map Prod.fst

/-- A concrete stand-in distance function for evaluating the route pipeline
at concrete inputs (the pipeline is parametric in the distance function). -/
def constDist : ℚ → ℚ → ℚ → ℚ → ℚ := fun _ _ _ _ => 1

/-- A well-formed request of employee 2 for assigned client 1. -/
def reqAssigned : CheckinReq :=
  { client_id := 1, latitude := some 28.5, longitude := some 77.09, notes := none }

/-- A request of employee 2 for client 4: the client exists but employee 2
has no assignment to it. -/
def reqUnassigned : CheckinReq :=
  { client_id := 4, latitude := some 28.5011, longitude := some 77.0838, notes := none }

/-- A request with a supplied latitude of exactly 0 (a valid coordinate that
JavaScript truthiness treats as absent). -/
def reqZeroLat : CheckinReq :=
  { client_id := 1, latitude := some 0, longitude := some 77.0887, notes := none }

/-- Folding a list of fetched rows into one member entry. -/
def updMany (a : AccEntry) (rows : List FetchedRow) : AccEntry := rows.foldl updEntry a

/-- The team totals accumulated over a list of fetched rows. -/
def accTotals (t : Totals) (l : List FetchedRow) : Totals :=
  { total_checkins := t.total_checkins + l.length,
    total_hours := t.total_hours + (l.map hoursOfRow).sum,
    unique_clients := l.foldl (fun u c => addUnique u c.client_id) t.unique_clients,
    total_distance := t.total_distance + (l.filterMap FetchedRow.distance_from_client).sum,
    distance_count := t.distance_count + (l.filterMap FetchedRow.distance_from_client).length }

/-! ## Helper lemmas: checkout frame -/

theorem checkoutFrame_setOut (now : ℚ) (x : Checkin) :
    checkoutFrame now x (setOut now x) := by
  right
  simp [setOut]

theorem forall2_frame_refl (now : ℚ) (l : List Checkin) :
    List.Forall₂ (checkoutFrame now) l l := by
  induction l with
  | nil => exact List.Forall₂.nil
  | cons x xs ih => exact List.Forall₂.cons (Or.inl rfl) ih

theorem forall2_frame_map (now : ℚ) (g : Checkin → Checkin)
    (hg : ∀ x, g x = x ∨ g x = setOut now x) (l : List Checkin) :
    List.Forall₂ (checkoutFrame now) l (l.map g) := by
  induction l with
  | nil => exact List.Forall₂.nil
  | cons x xs ih =>
    refine List.Forall₂.cons ?_ ih
    rcases hg x with h | h
    · rw [h]; exact Or.inl rfl
    · rw [h]; exact checkoutFrame_setOut now x

theorem forall2_frame_updateFirst (now : ℚ) (p : Checkin → Bool) (l : List Checkin) :
    List.Forall₂ (checkoutFrame now) l (updateFirst p (setOut now) l) := by
  induction l with
  | nil => exact List.Forall₂.nil
  | cons x xs ih =>
    by_cases h : p x
    · simp only [updateFirst, h, if_pos]
      exact List.Forall₂.cons (checkoutFrame_setOut now x) (forall2_frame_refl now xs)
    · simp only [updateFirst, h]
      exact List.Forall₂.cons (Or.inl rfl) ih

theorem filter_length_le_of_frame (now : ℚ) (e : ℕ) {l l' : List Checkin}
    (h : List.Forall₂ (checkoutFrame now) l l') :
    (l'.filter (isActiveFor e)).length ≤ (l.filter (isActiveFor e)).length := by
  induction h with
  | nil => exact Nat.le_refl 0
  | @cons a b as bs hab _ ih =>
    have hif : (if isActiveFor e b = true then 1 else 0) ≤
        (if isActiveFor e a = true then 1 else 0) := by
      rcases hab with hab | hab
      · rw [hab]
      · have hb : isActiveFor e b = false := by
          simp [isActiveFor, hab.2.1]
        simp [hb]
    have expand : ∀ (x : Checkin) (xs : List Checkin),
        ((x :: xs).filter (isActiveFor e)).length =
        (if isActiveFor e x = true then 1 else 0) + (xs.filter (isActiveFor e)).length := by
      intro x xs
      by_cases hx : isActiveFor e x = true <;> simp [List.filter_cons, hx, Nat.add_comm]
    rw [expand b bs, expand a as]
    exact Nat.add_le_add hif ih

/-! ## Helper lemmas: the single-active-check-in invariant -/

theorem activeCount_eq_of_checkins_frame (now : ℚ) {s s' : Store}
    (h : List.Forall₂ (checkoutFrame now) s.checkins s'.checkins) (e : ℕ) :
    activeCount s' e ≤ activeCount s e :=
  filter_length_le_of_frame now e h

theorem activeCount_checkoutV1 (now : ℚ) (s : Store) (e e' : ℕ) :
    activeCount (checkoutV1 now s e).2 e' ≤ activeCount s e' := by
  unfold checkoutV1
  cases hmr : mostRecent (s.checkins.filter (fun c => c.employee_id = e)) with
  | none => exact Nat.le_refl _
  | some c =>
    refine activeCount_eq_of_checkins_frame now ?_ e'
    refine forall2_frame_map now _ ?_ s.checkins
    intro x
    by_cases hx : x.id = c.id
    · right; simp [hx]
    · left; simp [hx]

theorem activeCount_checkoutV2 (now : ℚ) (s : Store) (e e' : ℕ) :
    activeCount (checkoutV2 now s e).2 e' ≤ activeCount s e' := by
  unfold checkoutV2
  cases hmr : mostRecent (activeRows s e) with
  | none => exact Nat.le_refl _
  | some c =>
    refine activeCount_eq_of_checkins_frame now ?_ e'
    unfold sqlCheckout
    refine forall2_frame_map now _ ?_ s.checkins
    intro x
    by_cases hx : x.id = c.id ∧ x.status = Status.checked_in
    · right; simp [hx]
    · left; simp [hx]

theorem activeCount_dbCheckout (now : ℚ) (s : Store) (cid : ℕ) (e' : ℕ) :
    activeCount (dbCheckout now s cid) e' ≤ activeCount s e' := by
  refine activeCount_eq_of_checkins_frame now ?_ e'
  exact forall2_frame_updateFirst now _ s.checkins

theorem activeCount_nextCheckout (now : ℚ) (s : Store) (e e' : ℕ) :
    activeCount (nextCheckout now s e).2 e' ≤ activeCount s e' := by
  unfold nextCheckout
  cases hmr : getActiveCheckin s e with
  | none => exact Nat.le_refl _
  | some c => exact activeCount_dbCheckout now s c.id e'

theorem activeCount_assignOp (s : Store) (e cid : ℕ) (today : String) (e' : ℕ) :
    activeCount (assignOp s e cid today) e' = activeCount s e' := rfl

theorem activeCount_createClientOp (s : Store) (name addr : String)
    (la lo : Option ℚ) (e' : ℕ) :
    activeCount (createClientOp s name addr la lo) e' = activeCount s e' := rfl

theorem activeRows_of_not_pos {s : Store} {e : ℕ}
    (h : ¬ 0 < (activeRows s e).length) : activeRows s e = [] := by
  have := Nat.eq_zero_of_not_pos h
  exact List.length_eq_zero.mp this

theorem activeCount_append_one (s : Store) (l : List Checkin) (r : Checkin) (e' : ℕ)
    (hl : s.checkins = l) :
    activeCount { s with checkins := l ++ [r] } e' =
      activeCount s e' + (if isActiveFor e' r then 1 else 0) := by
  subst hl
  by_cases hr : isActiveFor e' r <;>
    simp [activeCount, activeRows, List.filter_append, List.filter_cons, hr]

theorem activeCount_createCheckin (dist : ℚ → ℚ → ℚ → ℚ → ℚ) (now : ℚ) (s : Store)
    (e : ℕ) (req : CheckinReq) (h : ∀ x, activeCount s x ≤ 1) (e' : ℕ) :
    activeCount (createCheckin dist now s e req).2 e' ≤ 1 := by
  by_cases h1 : req.client_id = 0
  · simpa [createCheckin, h1] using h e'
  by_cases h2 : (assignedRows s e req.client_id).length = 0
  · simpa [createCheckin, h1, h2] using h e'
  by_cases h3 : 0 < (activeRows s e).length
  · simpa [createCheckin, h1, h2, h3] using h e'
  · have hnil : activeRows s e = [] := activeRows_of_not_pos h3
    simp only [createCheckin, h1, h2, h3, if_neg, if_false]
    rw [activeCount_append_one s s.checkins _ e' rfl]
    by_cases he : e = e'
    · subst he
      have h0 : activeCount s e = 0 := by simp [activeCount, hnil]
      simp [h0, isActiveFor]
    · have hx : ∀ r : Checkin, r.employee_id = e → isActiveFor e' r = false := by
        intro r hr
        simp [isActiveFor, hr, he]
      rw [hx _ rfl]
      simpa using h e'

theorem activeRows_nil_of_no_active {s : Store} {e : ℕ}
    (h : ¬ (getActiveCheckin s e).isSome = true) : activeRows s e = [] := by
  have hfind : s.checkins.find? (isActiveFor e) = none := by
    cases hgc : getActiveCheckin s e with
    | none => exact hgc
    | some c => exact absurd (Option.isSome_iff_exists.mpr ⟨c, hgc⟩) h
  exact List.filter_eq_nil_iff.mpr (List.find?_eq_none.mp hfind)

theorem activeCount_nextCreate (dist : ℚ → ℚ → ℚ → ℚ → ℚ) (now : ℚ) (s : Store)
    (e : ℕ) (req : CheckinReq) (h : ∀ x, activeCount s x ≤ 1) (e' : ℕ) :
    activeCount (nextCreate dist now s e req).2 e' ≤ 1 := by
  by_cases h1 : req.client_id = 0
  · simpa [nextCreate, h1] using h e'
  by_cases h2 : latInvalid req.latitude = true
  · simpa [nextCreate, h1, h2] using h e'
  by_cases h3 : lngInvalid req.longitude = true
  · simpa [nextCreate, h1, h2, h3] using h e'
  by_cases h4 : notesInvalid req.notes = true
  · simpa [nextCreate, h1, h2, h3, h4] using h e'
  by_cases h5 : (getActiveCheckin s e).isSome = true
  · simpa [nextCreate, h1, h2, h3, h4, h5] using h e'
  have hnil : activeRows s e = [] := activeRows_nil_of_no_active h5
  cases hcl : s.clients.find? (fun c => c.id = req.client_id) with
  | none => simpa [nextCreate, h1, h2, h3, h4, h5, hcl] using h e'
  | some client =>
    simp only [nextCreate, h1, h2, h3, h4, h5, hcl, if_neg, if_false,
      Bool.false_eq_true]
    rw [activeCount_append_one s s.checkins _ e' rfl]
    by_cases he : e = e'
    · subst he
      have h0 : activeCount s e = 0 := by simp [activeCount, hnil]
      simp [h0, isActiveFor]
    · have hx : ∀ r : Checkin, r.employee_id = e → isActiveFor e' r = false := by
        intro r hr
        simp [isActiveFor, hr, he]
      rw [hx _ rfl]
      simpa using h e'

theorem step_preserves_invariant {s s' : Store} (hs : Step s s')
    (h : ∀ x, activeCount s x ≤ 1) : ∀ x, activeCount s' x ≤ 1 := by
  cases hs with
  | create dist now _ e req =>
    exact fun e' => activeCount_createCheckin dist now _ e req h e'
  | createNext dist now _ e req =>
    exact fun e' => activeCount_nextCreate dist now _ e req h e'
  | checkout1 now _ e =>
    exact fun e' => Nat.le_trans (activeCount_checkoutV1 now _ e e') (h e')
  | checkout2 now _ e =>
    exact fun e' => Nat.le_trans (activeCount_checkoutV2 now _ e e') (h e')
  | checkoutNx now _ e =>
    exact fun e' => Nat.le_trans (activeCount_nextCheckout now _ e e') (h e')
  | checkoutDb now _ cid =>
    exact fun e' => Nat.le_trans (activeCount_dbCheckout now _ cid e') (h e')
  | assign _ e cid today =>
    exact fun e' => (activeCount_assignOp _ e cid today e') ▸ h e'
  | newClient _ name addr la lo =>
    exact fun e' => (activeCount_createClientOp _ name addr la lo e') ▸ h e'

theorem seed_invariant : ∀ e, activeCount seedStore e ≤ 1 := by
  intro e
  simp [activeCount, activeRows, seedStore, isActiveFor]

theorem reachable_invariant : ∀ s, Reachable s → ∀ e, activeCount s e ≤ 1 := by
  intro s hs
  induction hs with
  | seed => exact seed_invariant
  | step _ hstep ih => exact step_preserves_invariant hstep ih

/-! ## Helper lemmas: the create pipeline -/

theorem distanceBlock_computes (dist : ℚ → ℚ → ℚ → ℚ → ℚ) (client : Client)
    (req : CheckinReq) (la lo ca co : ℚ)
    (hla : req.latitude = some la) (hla0 : la ≠ 0)
    (hlo : req.longitude = some lo) (hlo0 : lo ≠ 0)
    (hca : client.latitude = some ca) (hca0 : ca ≠ 0)
    (hco : client.longitude = some co) (hco0 : co ≠ 0) :
    distanceBlock dist client req =
      (some (round2 (dist la lo ca co)),
       decide ((1 : ℚ) / 2 < round2 (dist la lo ca co))) := by
  simp [distanceBlock, truthy, hla, hlo, hca, hco, hla0, hlo0, hca0, hco0]

theorem distanceBlock_zero (dist : ℚ → ℚ → ℚ → ℚ → ℚ) (client : Client)
    (req : CheckinReq)
    (hzero : req.latitude = some 0 ∨ req.longitude = some 0 ∨
      client.latitude = some 0 ∨ client.longitude = some 0) :
    distanceBlock dist client req = (none, false) := by
  rcases hzero with h | h | h | h <;> simp [distanceBlock, truthy, h]

theorem createCheckin_success (dist : ℚ → ℚ → ℚ → ℚ → ℚ) (now : ℚ) (s : Store)
    (e : ℕ) (req : CheckinReq) (client : Client)
    (h1 : req.client_id ≠ 0)
    (h2 : (assignedRows s e req.client_id).length ≠ 0)
    (h3 : activeRows s e = [])
    (hcl : s.clients.find? (fun c => c.id = req.client_id) = some client) :
    createCheckin dist now s e req =
      (.created (s.checkins.length + 1) (distanceBlock dist client req).1
        (distanceBlock dist client req).2,
       { s with checkins := s.checkins ++
          [{ id := s.checkins.length + 1, employee_id := e,
             client_id := req.client_id, checkin_time := now, checkout_time := none,
             latitude := req.latitude, longitude := req.longitude,
             distance_from_client := (distanceBlock dist client req).1,
             notes := notesOrNull req.notes, status := .checked_in }] }) := by
  have h3' : ¬ 0 < (activeRows s e).length := by simp [h3]
  simp [createCheckin, h1, h2, h3', hcl]

theorem nextCreate_success (dist : ℚ → ℚ → ℚ → ℚ → ℚ) (now : ℚ) (s : Store)
    (e : ℕ) (req : CheckinReq) (client : Client)
    (h1 : req.client_id ≠ 0)
    (hlat : latInvalid req.latitude = false)
    (hlng : lngInvalid req.longitude = false)
    (hnts : notesInvalid req.notes = false)
    (hact : getActiveCheckin s e = none)
    (hcl : s.clients.find? (fun c => c.id = req.client_id) = some client) :
    nextCreate dist now s e req =
      (.created (s.checkins.length + 1) (distanceBlock dist client req).1
        (distanceBlock dist client req).2,
       { s with checkins := s.checkins ++
          [{ id := s.checkins.length + 1, employee_id := e,
             client_id := req.client_id, checkin_time := now, checkout_time := none,
             latitude := zeroToNull req.latitude, longitude := zeroToNull req.longitude,
             distance_from_client := (distanceBlock dist client req).1,
             notes := notesOrNull req.notes, status := .checked_in }] }) := by
  simp [nextCreate, h1, hlat, hlng, hnts, hact, hcl]

theorem getActive_isSome_of_pos {s : Store} {e : ℕ}
    (h : 0 < activeCount s e) : (getActiveCheckin s e).isSome = true := by
  have hne : activeRows s e ≠ [] := by
    intro hnil
    rw [activeCount, hnil] at h
    exact Nat.lt_irrefl 0 h
  obtain ⟨x, hx⟩ := List.exists_mem_of_ne_nil _ hne
  have hx' := List.mem_filter.mp hx
  exact List.find?_isSome.mpr ⟨x, hx'.1, hx'.2⟩

/- Batteries marks the rational arithmetic operations irreducible; restore
normal reducibility so that concrete runs of the (computable) model can be
evaluated by `decide`. -/
attribute [local semireducible] Rat.add Rat.mul Rat.sub Rat.inv Rat.ofScientific

/-! ## Claim theorems -/

/-- C1: the claim says checkout on an employee with no active check-in fails
with 404 and leaves the store unchanged.  The first checkout variant of
backend/routes/checkin.js selects the most recent check-in of the employee
without filtering on status: at the seeded store, employee 2 has no
checked_in record, yet checkout answers 200 and overwrites the
checkout_time of the already checked-out record 3 (473705.5, that is
17:30, becomes the current timestamp).  The Next.js checkout route keeps
the store unchanged but answers 400 rather than 404. -/
theorem checkoutV1_mutates_without_active_checkin :
    activeRows seedStore 2 = [] ∧
    (checkoutV1 500000 seedStore 2).1 = CheckoutRes.ok ∧
    ((checkoutV1 500000 seedStore 2).2.checkins.filter
      (fun c => c.id = 3)).map Checkin.checkout_time = [some 500000] ∧
    (seedStore.checkins.filter (fun c => c.id = 3)).map Checkin.checkout_time =
      [some 473705.5] ∧
    (nextCheckout 500000 seedStore 2).1 =
      CheckoutRes.err 400 ("No active check-in found to checkout from") := by
  decide

/-- C3: the claim says check-in creation requires an employee-client
assignment and fails with 403 otherwise.  The Express route enforces this,
but the Next.js check-in route performs no assignment check at all: employee
2 is not assigned to client 4, yet the route creates the check-in and
answers 201, growing the store. -/
theorem nextCreate_skips_assignment_check :
    isAssigned seedStore 2 4 = false ∧
    (createCheckin constDist 500000 seedStore 2 reqUnassigned) =
      (CreateRes.err 403 ("You are not assigned to this client"), seedStore) ∧
    (nextCreate constDist 500000 seedStore 2 reqUnassigned).1 =
      CreateRes.created 6 (some 1) true ∧
    (nextCreate constDist 500000 seedStore 2 reqUnassigned).2.checkins.length = 6 := by
  decide

/-- C4 counterexample: employee 2 checks in at assigned client 1 supplying
latitude 0 and longitude 77.0887; client 1 has stored coordinates.  All
coordinates are present, yet the created check-in stores no distance and
carries no warning, because the source tests coordinate presence by
truthiness: the claim would require distance_from_client to be the rounded
haversine distance (a present value). -/
theorem create_distance_null_at_zero_coordinate :
    (createCheckin constDist 500000 seedStore 2 reqZeroLat).1 =
      CreateRes.created 6 none false := by
  decide

theorem getActive_none_of_no_activeRows {s : Store} {e : ℕ}
    (h : activeRows s e = []) : getActiveCheckin s e = none := by
  rw [getActiveCheckin, List.find?_eq_none]
  intro x hx hactive
  have hmem : x ∈ activeRows s e := List.mem_filter.mpr ⟨hx, hactive⟩
  rw [h] at hmem
  exact absurd hmem (List.not_mem_nil x)

/-- C4 (amended to nonzero coordinates): when the caller supplies nonzero
coordinates and the target client stores nonzero coordinates, both check-in
routes — the Express POST and the Next.js POST — create the check-in storing
exactly the haversine distance rounded to 2 decimals, the far-from-client
warning is attached if and only if that rounded distance exceeds 0.5 km,
and the check-in is created (201) regardless of the warning. -/
theorem create_stores_rounded_distance_and_warning
    (dist : ℚ → ℚ → ℚ → ℚ → ℚ) (now : ℚ) (s : Store) (e : ℕ) (req : CheckinReq)
    (client : Client) (la lo ca co : ℚ)
    (h1 : req.client_id ≠ 0)
    (h2 : (assignedRows s e req.client_id).length ≠ 0)
    (h3 : activeRows s e = [])
    (hcl : s.clients.find? (fun c => c.id = req.client_id) = some client)
    (hla : req.latitude = some la) (hla0 : la ≠ 0)
    (hlo : req.longitude = some lo) (hlo0 : lo ≠ 0)
    (hca : client.latitude = some ca) (hca0 : ca ≠ 0)
    (hco : client.longitude = some co) (hco0 : co ≠ 0)
    (hlat : latInvalid req.latitude = false)
    (hlng : lngInvalid req.longitude = false)
    (hnts : notesInvalid req.notes = false) :
    createCheckin dist now s e req =
      (.created (s.checkins.length + 1) (some (round2 (dist la lo ca co)))
        (decide ((1 : ℚ) / 2 < round2 (dist la lo ca co))),
       { s with checkins := s.checkins ++
          [{ id := s.checkins.length + 1, employee_id := e,
             client_id := req.client_id, checkin_time := now, checkout_time := none,
             latitude := req.latitude, longitude := req.longitude,
             distance_from_client := some (round2 (dist la lo ca co)),
             notes := notesOrNull req.notes, status := .checked_in }] }) ∧
    nextCreate dist now s e req =
      (.created (s.checkins.length + 1) (some (round2 (dist la lo ca co)))
        (decide ((1 : ℚ) / 2 < round2 (dist la lo ca co))),
       { s with checkins := s.checkins ++
          [{ id := s.checkins.length + 1, employee_id := e,
             client_id := req.client_id, checkin_time := now, checkout_time := none,
             latitude := zeroToNull req.latitude, longitude := zeroToNull req.longitude,
             distance_from_client := some (round2 (dist la lo ca co)),
             notes := notesOrNull req.notes, status := .checked_in }] }) := by
  constructor
  · rw [createCheckin_success dist now s e req client h1 h2 h3 hcl,
      distanceBlock_computes dist client req la lo ca co hla hla0 hlo hlo0 hca hca0 hco hco0]
  · rw [nextCreate_success dist now s e req client h1 hlat hlng hnts
        (getActive_none_of_no_activeRows h3) hcl,
      distanceBlock_computes dist client req la lo ca co hla hla0 hlo hlo0 hca hca0 hco hco0]

/-- C4 witness: the amended theorem applied at the seeded store, employee 2,
assigned client 1, caller coordinates (28.5, 77.09), for both routes. -/
theorem create_stores_rounded_distance_and_warning_witness :
    (reqAssigned.client_id ≠ 0 ∧
      (assignedRows seedStore 2 reqAssigned.client_id).length ≠ 0 ∧
      activeRows seedStore 2 = [] ∧
      latInvalid reqAssigned.latitude = false ∧
      lngInvalid reqAssigned.longitude = false ∧
      notesInvalid reqAssigned.notes = false) ∧
    createCheckin constDist 500000 seedStore 2 reqAssigned =
      (.created (seedStore.checkins.length + 1)
        (some (round2 (constDist 28.5 77.09 28.4946 77.0887)))
        (decide ((1 : ℚ) / 2 < round2 (constDist 28.5 77.09 28.4946 77.0887))),
       { seedStore with checkins := seedStore.checkins ++
          [{ id := seedStore.checkins.length + 1, employee_id := 2,
             client_id := reqAssigned.client_id, checkin_time := 500000,
             checkout_time := none,
             latitude := reqAssigned.latitude, longitude := reqAssigned.longitude,
             distance_from_client := some (round2 (constDist 28.5 77.09 28.4946 77.0887)),
             notes := notesOrNull reqAssigned.notes, status := .checked_in }] }) ∧
    nextCreate constDist 500000 seedStore 2 reqAssigned =
      (.created (seedStore.checkins.length + 1)
        (some (round2 (constDist 28.5 77.09 28.4946 77.0887)))
        (decide ((1 : ℚ) / 2 < round2 (constDist 28.5 77.09 28.4946 77.0887))),
       { seedStore with checkins := seedStore.checkins ++
          [{ id := seedStore.checkins.length + 1, employee_id := 2,
             client_id := reqAssigned.client_id, checkin_time := 500000,
             checkout_time := none,
             latitude := zeroToNull reqAssigned.latitude,
             longitude := zeroToNull reqAssigned.longitude,
             distance_from_client := some (round2 (constDist 28.5 77.09 28.4946 77.0887)),
             notes := notesOrNull reqAssigned.notes, status := .checked_in }] }) := by
  refine ⟨⟨by decide, by decide, by decide, by decide, by decide, by decide⟩, ?_⟩
  exact create_stores_rounded_distance_and_warning constDist 500000 seedStore 2 reqAssigned
    { id := 1, name := "ABC Corp", address := "Cyber City, Gurugram",
      latitude := some 28.4946, longitude := some 77.0887 }
    28.5 77.09 28.4946 77.0887
    (by decide) (by decide) (by decide) (by decide) (by decide) (by decide)
    (by decide) (by decide) (by decide) (by decide) (by decide) (by decide)
    (by decide) (by decide) (by decide)

/-- C10: both check-in routes test coordinate presence by JavaScript
truthiness.  Whenever the caller-supplied latitude or longitude, or the
client's stored latitude or longitude, equals 0 — although all four
coordinates are present — the created check-in stores a null
distance_from_client and no warning is issued. -/
theorem create_skips_distance_at_zero_coordinate
    (dist : ℚ → ℚ → ℚ → ℚ → ℚ) (now : ℚ) (s : Store) (e : ℕ) (req : CheckinReq)
    (client : Client) (la lo ca co : ℚ)
    (hla : req.latitude = some la) (hlo : req.longitude = some lo)
    (hca : client.latitude = some ca) (hco : client.longitude = some co)
    (hzero : la = 0 ∨ lo = 0 ∨ ca = 0 ∨ co = 0)
    (h1 : req.client_id ≠ 0)
    (h2 : (assignedRows s e req.client_id).length ≠ 0)
    (h3 : activeRows s e = [])
    (hcl : s.clients.find? (fun c => c.id = req.client_id) = some client)
    (hlat : latInvalid req.latitude = false)
    (hlng : lngInvalid req.longitude = false)
    (hnts : notesInvalid req.notes = false) :
    createCheckin dist now s e req =
      (.created (s.checkins.length + 1) none false,
       { s with checkins := s.checkins ++
          [{ id := s.checkins.length + 1, employee_id := e,
             client_id := req.client_id, checkin_time := now, checkout_time := none,
             latitude := req.latitude, longitude := req.longitude,
             distance_from_client := none,
             notes := notesOrNull req.notes, status := .checked_in }] }) ∧
    nextCreate dist now s e req =
      (.created (s.checkins.length + 1) none false,
       { s with checkins := s.checkins ++
          [{ id := s.checkins.length + 1, employee_id := e,
             client_id := req.client_id, checkin_time := now, checkout_time := none,
             latitude := zeroToNull req.latitude, longitude := zeroToNull req.longitude,
             distance_from_client := none,
             notes := notesOrNull req.notes, status := .checked_in }] }) := by
  have hz : req.latitude = some 0 ∨ req.longitude = some 0 ∨
      client.latitude = some 0 ∨ client.longitude = some 0 := by
    rcases hzero with h | h | h | h
    · exact Or.inl (h ▸ hla)
    · exact Or.inr (Or.inl (h ▸ hlo))
    · exact Or.inr (Or.inr (Or.inl (h ▸ hca)))
    · exact Or.inr (Or.inr (Or.inr (h ▸ hco)))
  have hact : getActiveCheckin s e = none := by
    rw [getActiveCheckin, List.find?_eq_none]
    intro x hx
    intro hactive
    have : x ∈ activeRows s e := List.mem_filter.mpr ⟨hx, hactive⟩
    rw [h3] at this
    exact absurd this (List.not_mem_nil x)
  constructor
  · rw [createCheckin_success dist now s e req client h1 h2 h3 hcl,
      distanceBlock_zero dist client req hz]
  · rw [nextCreate_success dist now s e req client h1 hlat hlng hnts hact hcl,
      distanceBlock_zero dist client req hz]

/-- C10 witness: employee 2, assigned client 1 (stored coordinates nonzero),
supplied latitude exactly 0 and longitude 77.0887: both routes create the
check-in with a null distance and no warning. -/
theorem create_skips_distance_at_zero_coordinate_witness :
    (reqZeroLat.latitude = some 0 ∧ reqZeroLat.client_id ≠ 0 ∧
      activeRows seedStore 2 = []) ∧
    createCheckin constDist 500000 seedStore 2 reqZeroLat =
      (.created (seedStore.checkins.length + 1) none false,
       { seedStore with checkins := seedStore.checkins ++
          [{ id := seedStore.checkins.length + 1, employee_id := 2,
             client_id := reqZeroLat.client_id, checkin_time := 500000,
             checkout_time := none,
             latitude := reqZeroLat.latitude, longitude := reqZeroLat.longitude,
             distance_from_client := none,
             notes := notesOrNull reqZeroLat.notes, status := .checked_in }] }) ∧
    nextCreate constDist 500000 seedStore 2 reqZeroLat =
      (.created (seedStore.checkins.length + 1) none false,
       { seedStore with checkins := seedStore.checkins ++
          [{ id := seedStore.checkins.length + 1, employee_id := 2,
             client_id := reqZeroLat.client_id, checkin_time := 500000,
             checkout_time := none,
             latitude := zeroToNull reqZeroLat.latitude,
             longitude := zeroToNull reqZeroLat.longitude,
             distance_from_client := none,
             notes := notesOrNull reqZeroLat.notes, status := .checked_in }] }) := by
  refine ⟨⟨by decide, by decide, by decide⟩, ?_⟩
  exact create_skips_distance_at_zero_coordinate constDist 500000 seedStore 2 reqZeroLat
    { id := 1, name := "ABC Corp", address := "Cyber City, Gurugram",
      latitude := some 28.4946, longitude := some 77.0887 }
    0 77.0887 28.4946 77.0887
    (by decide) (by decide) (by decide) (by decide) (Or.inl rfl)
    (by decide) (by decide) (by decide) (by decide) (by decide) (by decide) (by decide)

/-- C2: at every state of the data store reachable from the seeded database,
every employee has at most one checked_in record; and whenever an active
check-in exists, both check-in creation routes refuse with the 400 conflict
response and leave the store unchanged (the Express route once the request
passes its client-id and assignment guards, the Next.js route once the
request passes its validation guards). -/
theorem single_active_checkin_invariant :
    (∀ s, Reachable s → ∀ e, activeCount s e ≤ 1) ∧
    (∀ (dist : ℚ → ℚ → ℚ → ℚ → ℚ) (now : ℚ) (s : Store) (e : ℕ) (req : CheckinReq),
      req.client_id ≠ 0 → (assignedRows s e req.client_id).length ≠ 0 →
      0 < activeCount s e →
      createCheckin dist now s e req =
        (.err 400 ("You already have an active check-in. Please checkout first."), s)) ∧
    (∀ (dist : ℚ → ℚ → ℚ → ℚ → ℚ) (now : ℚ) (s : Store) (e : ℕ) (req : CheckinReq),
      req.client_id ≠ 0 → latInvalid req.latitude = false →
      lngInvalid req.longitude = false → notesInvalid req.notes = false →
      0 < activeCount s e →
      nextCreate dist now s e req =
        (.err 400 ("You already have an active check-in. Please checkout first."), s)) := by
  refine ⟨reachable_invariant, ?_, ?_⟩
  · intro dist now s e req h1 h2 h3
    rw [activeCount] at h3
    simp [createCheckin, h1, h2, h3]
  · intro dist now s e req h1 hlat hlng hnts h3
    have h5 : (getActiveCheckin s e).isSome = true := getActive_isSome_of_pos h3
    simp [nextCreate, h1, hlat, hlng, hnts, h5]

/-- C2 witness: the invariant instantiated at the seeded store, and both
conflict rejections instantiated at the store reached after employee 2
checks in at client 1. -/
theorem single_active_checkin_invariant_witness :
    activeCount seedStore 2 ≤ 1 ∧
    (reqAssigned.client_id ≠ 0 ∧
      (assignedRows (createCheckin constDist 500000 seedStore 2 reqAssigned).2 2
        reqAssigned.client_id).length ≠ 0 ∧
      0 < activeCount (createCheckin constDist 500000 seedStore 2 reqAssigned).2 2) ∧
    createCheckin constDist 500001
        (createCheckin constDist 500000 seedStore 2 reqAssigned).2 2 reqAssigned =
      (.err 400 ("You already have an active check-in. Please checkout first."),
       (createCheckin constDist 500000 seedStore 2 reqAssigned).2) ∧
    nextCreate constDist 500001
        (createCheckin constDist 500000 seedStore 2 reqAssigned).2 2 reqAssigned =
      (.err 400 ("You already have an active check-in. Please checkout first."),
       (createCheckin constDist 500000 seedStore 2 reqAssigned).2) := by
  refine ⟨single_active_checkin_invariant.1 seedStore Reachable.seed 2,
    ⟨by decide, by decide, by decide⟩, ?_, ?_⟩
  · exact single_active_checkin_invariant.2.1 constDist 500001 _ 2 reqAssigned
      (by decide) (by decide) (by decide)
  · exact single_active_checkin_invariant.2.2 constDist 500001 _ 2 reqAssigned
      (by decide) (by decide) (by decide) (by decide) (by decide)

/-- C8: a checkout only ever rewrites checkout_time (to the current
timestamp) and status (to checked_out) of the record it acts on: under the
lib/db.ts checkout, the SQL checkout UPDATE, and both checkout routes, every
record of the store is either exactly unchanged or has exactly those two
fields changed — in particular checkin_time and distance_from_client are
never touched and the distance is never recomputed — and no record is added
or removed. -/
theorem checkout_modifies_only_checkout_fields :
    ∀ (now : ℚ) (s : Store) (cid e : ℕ),
      List.Forall₂ (checkoutFrame now) s.checkins (dbCheckout now s cid).checkins ∧
      List.Forall₂ (checkoutFrame now) s.checkins (sqlCheckout now cid s.checkins) ∧
      List.Forall₂ (checkoutFrame now) s.checkins ((checkoutV2 now s e).2.checkins) ∧
      List.Forall₂ (checkoutFrame now) s.checkins ((checkoutV1 now s e).2.checkins) := by
  intro now s cid e
  have hsql : ∀ cid', List.Forall₂ (checkoutFrame now) s.checkins
      (sqlCheckout now cid' s.checkins) := by
    intro cid'
    refine forall2_frame_map now _ ?_ s.checkins
    intro x
    by_cases hx : x.id = cid' ∧ x.status = Status.checked_in
    · right; simp [hx]
    · left; simp [hx]
  refine ⟨forall2_frame_updateFirst now _ s.checkins, hsql cid, ?_, ?_⟩
  · unfold checkoutV2
    cases mostRecent (activeRows s e) with
    | none => exact forall2_frame_refl now s.checkins
    | some c => exact hsql c.id
  · unfold checkoutV1
    cases mostRecent (s.checkins.filter (fun c => c.employee_id = e)) with
    | none => exact forall2_frame_refl now s.checkins
    | some c =>
      refine forall2_frame_map now _ ?_ s.checkins
      intro x
      by_cases hx : x.id = c.id
      · right; simp [hx]
      · left; simp [hx]

/-- C9: for a manager with no team members, the daily summary returns the
success payload with every count zero, a null average distance, and an empty
employee breakdown. -/
theorem daily_summary_empty_team (s : Store) (m : ℕ) (date : ℤ) (filt : Option ℕ)
    (h : s.users.filter (fun u => u.manager_id = some m) = []) :
    dailySummary s m date filt =
      { date := date,
        team_summary :=
          { total_employees := 0, employees_with_checkins := 0, total_checkins := 0,
            total_hours_worked := 0, unique_clients_visited := 0,
            average_distance_from_client := none },
        employee_breakdown := [] } := by
  simp [dailySummary, h]

/-- C9 witness: manager 2 of the seeded store has no team members. -/
theorem daily_summary_empty_team_witness :
    seedStore.users.filter (fun u => u.manager_id = some 2) = [] ∧
    dailySummary seedStore 2 19737 none =
      { date := 19737,
        team_summary :=
          { total_employees := 0, employees_with_checkins := 0, total_checkins := 0,
            total_hours_worked := 0, unique_clients_visited := 0,
            average_distance_from_client := none },
        employee_breakdown := [] } :=
  ⟨by decide, daily_summary_empty_team seedStore 2 19737 none (by decide)⟩

/-! ## Helper lemmas: the employeeMap association list -/

theorem memKey_iff_mem_mapKeys (k : ℕ) (m : List (ℕ × AccEntry)) :
    memKey k m = true ↔ k ∈ mapKeys m := by
  constructor
  · intro h
    obtain ⟨p, hp, hk⟩ := List.any_eq_true.mp h
    have hk' : p.1 = k := of_decide_eq_true hk
    exact hk' ▸ List.mem_map.mpr ⟨p, hp, rfl⟩
  · intro h
    obtain ⟨p, hp, hk⟩ := List.mem_map.mp h
    exact List.any_eq_true.mpr ⟨p, hp, decide_eq_true hk⟩

theorem mapGet_eq_none_iff (k : ℕ) (m : List (ℕ × AccEntry)) :
    mapGet k m = none ↔ ∀ p ∈ m, p.1 ≠ k := by
  simp [mapGet, List.find?_eq_none]

theorem mapSet_absent {k : ℕ} {m : List (ℕ × AccEntry)} (v : AccEntry)
    (h : memKey k m = false) : mapSet k v m = m ++ [(k, v)] := by
  simp [mapSet, h]

theorem mapSet_present {k : ℕ} {m : List (ℕ × AccEntry)} (v : AccEntry)
    (h : memKey k m = true) :
    mapSet k v m = m.map (fun p => if p.1 = k then (k, v) else p) := by
  simp [mapSet, h]

theorem mapKeys_mapSet_present {k : ℕ} {m : List (ℕ × AccEntry)} (v : AccEntry)
    (h : memKey k m = true) : mapKeys (mapSet k v m) = mapKeys m := by
  rw [mapSet_present v h, mapKeys, List.map_map, mapKeys]
  apply List.map_congr_left
  intro p _
  by_cases hp : p.1 = k
  · simp [hp]
  · simp [hp]

theorem memKey_mapSet_present {k k' : ℕ} {m : List (ℕ × AccEntry)} (v : AccEntry)
    (h : memKey k' m = true) : memKey k (mapSet k' v m) = memKey k m := by
  by_cases hk : memKey k m = true
  · rw [hk, (memKey_iff_mem_mapKeys k _).mpr]
    rw [mapKeys_mapSet_present v h]
    exact (memKey_iff_mem_mapKeys k m).mp hk
  · have hk' : memKey k m = false := by
      cases hmk : memKey k m with
      | true => exact absurd hmk hk
      | false => rfl
    rw [hk']
    cases hmk : memKey k (mapSet k' v m) with
    | false => rfl
    | true =>
      exfalso
      have := (memKey_iff_mem_mapKeys k _).mp hmk
      rw [mapKeys_mapSet_present v h] at this
      rw [(memKey_iff_mem_mapKeys k m).mpr this] at hk'
      cases hk'

theorem mapGet_first_of_nodup {m : List (ℕ × AccEntry)}
    (hnd : (mapKeys m).Nodup) {p : ℕ × AccEntry} (hp : p ∈ m) :
    mapGet p.1 m = some p.2 := by
  induction m with
  | nil => cases hp
  | cons q rest ih =>
    rw [mapKeys, List.map_cons, List.nodup_cons] at hnd
    rcases List.mem_cons.mp hp with hq | hrest
    · subst hq
      simp [mapGet, List.find?_cons_of_pos]
    · by_cases hqp : q.1 = p.1
      · exfalso
        apply hnd.1
        rw [hqp]
        exact List.mem_map.mpr ⟨p, hrest, rfl⟩
      · rw [mapGet, List.find?_cons_of_neg, ← mapGet]
        · exact ih hnd.2 hrest
        · simp [hqp]

theorem memKey_append (k : ℕ) (a b : List (ℕ × AccEntry)) :
    memKey k (a ++ b) = (memKey k a || memKey k b) := by
  simp [memKey, List.any_append]

theorem memKey_mapSet_iff (k k' : ℕ) (v : AccEntry) (m : List (ℕ × AccEntry)) :
    memKey k (mapSet k' v m) = true ↔ (k = k' ∨ memKey k m = true) := by
  by_cases h : memKey k' m = true
  · rw [memKey_mapSet_present v h]
    constructor
    · exact fun hk => Or.inr hk
    · rintro (hk | hk)
      · exact hk ▸ h
      · exact hk
  · have h' : memKey k' m = false := by
      cases hmk : memKey k' m with
      | true => exact absurd hmk h
      | false => rfl
    rw [mapSet_absent v h', memKey_append]
    simp [memKey]
    constructor
    · rintro (hk | hk)
      · exact Or.inr hk
      · exact Or.inl hk.symm
    · rintro (hk | hk)
      · exact Or.inr hk.symm
      · exact Or.inl hk

theorem initMap_go (filt : Option ℕ) :
    ∀ (team : List User) (acc : List (ℕ × AccEntry)),
      (team.map User.id).Nodup → (∀ u ∈ team, memKey u.id acc = false) →
      team.foldl (fun m u => if filtSkip filt u then m else mapSet u.id (initEntry u) m) acc =
        acc ++ (team.filter (fun u => !filtSkip filt u)).map (fun u => (u.id, initEntry u)) := by
  intro team
  induction team with
  | nil => intro acc _ _; simp
  | cons u rest ih =>
    intro acc hnd habs
    rw [List.map_cons, List.nodup_cons] at hnd
    by_cases hsk : filtSkip filt u = true
    · rw [List.foldl_cons, if_pos hsk, List.filter_cons_of_neg (by simp [hsk])]
      exact ih acc hnd.2 (fun v hv => habs v (List.mem_cons_of_mem u hv))
    · have hsk' : filtSkip filt u = false := by
        cases hx : filtSkip filt u with
        | true => exact absurd hx hsk
        | false => rfl
      rw [List.foldl_cons, if_neg (by simp [hsk']),
        mapSet_absent (initEntry u) (habs u (List.mem_cons_self u rest)),
        List.filter_cons_of_pos (by simp [hsk'])]
      rw [ih (acc ++ [(u.id, initEntry u)]) hnd.2 ?_]
      · simp
      · intro v hv
        rw [memKey_append]
        have h1 : memKey v.id acc = false := habs v (List.mem_cons_of_mem u hv)
        have h2 : memKey v.id [(u.id, initEntry u)] = false := by
          have : u.id ≠ v.id := by
            intro hc
            exact hnd.1 (hc ▸ List.mem_map.mpr ⟨v, hv, rfl⟩)
          simp [memKey, this]
        rw [h1, h2]
        rfl

theorem initMap_eq (team : List User) (filt : Option ℕ)
    (hnd : (team.map User.id).Nodup) :
    initMap team filt =
      (team.filter (fun u => !filtSkip filt u)).map (fun u => (u.id, initEntry u)) := by
  have := initMap_go filt team [] hnd (fun u _ => rfl)
  simpa [initMap] using this

theorem memKey_initMap_iff (team : List User) (filt : Option ℕ) (k : ℕ) :
    memKey k (initMap team filt) = true ↔
      ∃ u ∈ team, filtSkip filt u = false ∧ u.id = k := by
  rw [initMap]
  have main : ∀ (tm : List User) (acc : List (ℕ × AccEntry)),
      memKey k (tm.foldl
        (fun m u => if filtSkip filt u then m else mapSet u.id (initEntry u) m) acc) = true ↔
      (memKey k acc = true ∨ ∃ u ∈ tm, filtSkip filt u = false ∧ u.id = k) := by
    intro tm
    induction tm with
    | nil => intro acc; simp
    | cons u rest ih =>
      intro acc
      by_cases hsk : filtSkip filt u = true
      · rw [List.foldl_cons, if_pos hsk, ih acc]
        constructor
        · rintro (h | h)
          · exact Or.inl h
          · exact Or.inr (by
              obtain ⟨v, hv, h1, h2⟩ := h
              exact ⟨v, List.mem_cons_of_mem u hv, h1, h2⟩)
        · rintro (h | h)
          · exact Or.inl h
          · obtain ⟨v, hv, h1, h2⟩ := h
            rcases List.mem_cons.mp hv with rfl | hv'
            · rw [hsk] at h1; cases h1
            · exact Or.inr ⟨v, hv', h1, h2⟩
      · have hsk' : filtSkip filt u = false := by
          cases hx : filtSkip filt u with
          | true => exact absurd hx hsk
          | false => rfl
        rw [List.foldl_cons, if_neg (by simp [hsk']), ih _]
        rw [memKey_mapSet_iff]
        constructor
        · rintro ((h | h) | h)
          · exact Or.inr ⟨u, List.mem_cons_self u rest, hsk', h.symm⟩
          · exact Or.inl h
          · obtain ⟨v, hv, h1, h2⟩ := h
            exact Or.inr ⟨v, List.mem_cons_of_mem u hv, h1, h2⟩
        · rintro (h | h)
          · exact Or.inl (Or.inr h)
          · obtain ⟨v, hv, h1, h2⟩ := h
            rcases List.mem_cons.mp hv with rfl | hv'
            · exact Or.inl (Or.inl h2.symm)
            · exact Or.inr ⟨v, hv', h1, h2⟩
  rw [main team []]
  simp [memKey]

/-! ## Helper lemmas: folding check-ins into entries and totals -/

theorem updMany_spec :
    ∀ (rows : List FetchedRow) (a : AccEntry),
      (updMany a rows).employee_id = a.employee_id ∧
      (updMany a rows).employee_name = a.employee_name ∧
      (updMany a rows).employee_email = a.employee_email ∧
      (updMany a rows).total_checkins = a.total_checkins + rows.length ∧
      (updMany a rows).hours_worked = a.hours_worked + (rows.map hoursOfRow).sum ∧
      (updMany a rows).checkins = a.checkins ++ rows.map detailOf ∧
      (updMany a rows).total_distance =
        a.total_distance + (rows.filterMap FetchedRow.distance_from_client).sum ∧
      (updMany a rows).distance_count =
        a.distance_count + (rows.filterMap FetchedRow.distance_from_client).length := by
  intro rows
  induction rows with
  | nil => intro a; simp [updMany]
  | cons c rest ih =>
    intro a
    have hstep : updMany a (c :: rest) = updMany (updEntry a c) rest := rfl
    obtain ⟨e1, e2, e3, e4, e5, e6, e7, e8⟩ := ih (updEntry a c)
    rw [hstep]
    refine ⟨by rw [e1]; rfl, by rw [e2]; rfl, by rw [e3]; rfl, ?_, ?_, ?_, ?_, ?_⟩
    · rw [e4]
      show a.total_checkins + 1 + rest.length = _
      rw [List.length_cons]
      omega
    · rw [e5]
      show a.hours_worked + hoursOfRow c + (rest.map hoursOfRow).sum = _
      rw [List.map_cons, List.sum_cons]
      ring
    · rw [e6]
      show a.checkins ++ [detailOf c] ++ rest.map detailOf = _
      rw [List.map_cons, List.append_assoc]
      rfl
    · rw [e7]
      cases hd : c.distance_from_client with
      | none => simp [updEntry, hd, List.filterMap_cons]
      | some d =>
        simp only [updEntry, hd, List.filterMap_cons, Option.some.injEq, List.sum_cons]
        ring
    · rw [e8]
      cases hd : c.distance_from_client with
      | none => simp [updEntry, hd, List.filterMap_cons]
      | some d =>
        simp only [updEntry, hd, List.filterMap_cons, List.length_cons]
        omega

theorem accTotals_cons (t : Totals) (c : FetchedRow) (l : List FetchedRow) :
    accTotals t (c :: l) = accTotals (updTotals t c) l := by
  cases hd : c.distance_from_client with
  | none =>
    simp only [accTotals, updTotals, hd, List.filterMap_cons, List.length_cons,
      List.map_cons, List.sum_cons, List.foldl_cons, Totals.mk.injEq]
    and_intros <;> first | rfl | omega | ring
  | some d =>
    simp only [accTotals, updTotals, hd, List.filterMap_cons, List.length_cons,
      List.map_cons, List.sum_cons, List.foldl_cons, Totals.mk.injEq]
    and_intros <;> first | rfl | omega | ring

theorem stepAll_fold :
    ∀ (l : List FetchedRow) (m : List (ℕ × AccEntry)) (t : Totals),
      (mapKeys m).Nodup → (∀ c ∈ l, memKey c.employee_id m = true) →
      l.foldl stepAll (m, t) =
        (m.map (fun p => (p.1, updMany p.2 (l.filter (fun c => c.employee_id = p.1)))),
         accTotals t l) := by
  intro l
  induction l with
  | nil =>
    intro m t _ _
    simp [updMany, accTotals]
  | cons c rest ih =>
    intro m t hnd hmem
    have hc : memKey c.employee_id m = true := hmem c (List.mem_cons_self _ _)
    obtain ⟨a, ha⟩ : ∃ a, mapGet c.employee_id m = some a := by
      cases hg : mapGet c.employee_id m with
      | some a => exact ⟨a, rfl⟩
      | none =>
        exfalso
        have hmemk := (memKey_iff_mem_mapKeys _ m).mp hc
        obtain ⟨p, hp, hpk⟩ := List.mem_map.mp hmemk
        exact (mapGet_eq_none_iff _ m).mp hg p hp hpk
    rw [List.foldl_cons]
    have hstep : stepAll (m, t) c =
        (mapSet c.employee_id (updEntry a c) m, updTotals t c) := by
      simp [stepAll, ha]
    rw [hstep]
    have hnd' : (mapKeys (mapSet c.employee_id (updEntry a c) m)).Nodup := by
      rw [mapKeys_mapSet_present _ hc]; exact hnd
    have hmem' : ∀ c' ∈ rest,
        memKey c'.employee_id (mapSet c.employee_id (updEntry a c) m) = true := by
      intro c' hc'
      rw [memKey_mapSet_present _ hc]
      exact hmem c' (List.mem_cons_of_mem c hc')
    rw [ih _ (updTotals t c) hnd' hmem']
    rw [accTotals_cons]
    refine congrArg (fun x => (x, accTotals (updTotals t c) rest)) ?_
    rw [mapSet_present _ hc, List.map_map]
    apply List.map_congr_left
    intro p hp
    simp only [Function.comp_apply]
    by_cases hpk : p.1 = c.employee_id
    · have hpa : p.2 = a := by
        have hfirst := mapGet_first_of_nodup hnd hp
        rw [hpk, ha] at hfirst
        exact ((Option.some.injEq _ _).mp hfirst).symm
      have hfil : (c :: rest).filter (fun x => x.employee_id = c.employee_id) =
          c :: rest.filter (fun x => x.employee_id = c.employee_id) :=
        List.filter_cons_of_pos (by simp)
      rw [if_pos hpk, hpk, hfil, hpa]
      rfl
    · have hfil : (c :: rest).filter (fun x => x.employee_id = p.1) =
          rest.filter (fun x => x.employee_id = p.1) :=
        List.filter_cons_of_neg (by simp [Ne.symm hpk])
      rw [if_neg hpk, hfil]

/-! ## Helper lemmas: the daily-summary query and assembly -/

theorem round2_zero : round2 0 = 0 := by decide

theorem dailyFetch_mem {s : Store} {m : ℕ} {date : ℤ} {filt : Option ℕ}
    {r : FetchedRow} (hr : r ∈ dailyFetch s m date filt) :
    ∃ u ∈ s.users, u.id = r.employee_id ∧ u.manager_id = some m ∧
      filtOk filt r.employee_id = true := by
  have hr' : r ∈ s.checkins.filterMap (fetchKeep s m date filt) := by
    simpa [dailyFetch] using hr
  obtain ⟨c, _, hk⟩ := List.mem_filterMap.mp hr'
  rw [fetchKeep] at hk
  split at hk
  case h_2 => cases hk
  case h_1 u cl hu hcl =>
    split at hk
    case isFalse => cases hk
    case isTrue hcond =>
      have hre : r.employee_id = c.employee_id := by
        cases hk
        rfl
      have hu1 : u ∈ s.users := List.mem_of_find?_eq_some hu
      have hu2 : u.id = c.employee_id := by
        have h2 := List.find?_some hu
        exact of_decide_eq_true h2
      exact ⟨u, hu1, by rw [hu2, hre], hcond.1, by rw [hre]; exact hcond.2.2⟩

theorem memKey_init_of_fetched {s : Store} {m : ℕ} {date : ℤ} {filt : Option ℕ}
    {r : FetchedRow} (hr : r ∈ dailyFetch s m date filt) :
    memKey r.employee_id
      (initMap (s.users.filter (fun u => u.manager_id = some m)) filt) = true := by
  obtain ⟨u, hu, hid, hmgr, hfo⟩ := dailyFetch_mem hr
  apply (memKey_initMap_iff _ _ _).mpr
  refine ⟨u, List.mem_filter.mpr ⟨hu, by simp [hmgr]⟩, ?_, hid⟩
  cases filt with
  | none => rfl
  | some f =>
    have hf : r.employee_id = f := of_decide_eq_true (by simpa [filtOk] using hfo)
    simp [filtSkip, hid, hf]

theorem dailyFetch_nil_of_team_empty {s : Store} {m : ℕ} (date : ℤ) (filt : Option ℕ)
    (h : s.users.filter (fun u => u.manager_id = some m) = []) :
    dailyFetch s m date filt = [] := by
  have hfm : s.checkins.filterMap (fetchKeep s m date filt) = [] := by
    rw [List.filterMap_eq_nil_iff]
    intro c _
    rw [fetchKeep]
    split
    case h_2 => rfl
    case h_1 u cl hu hcl =>
      rw [if_neg]
      rintro ⟨h1, -, -⟩
      have hu1 : u ∈ s.users := List.mem_of_find?_eq_some hu
      have : u ∈ s.users.filter (fun v => v.manager_id = some m) :=
        List.mem_filter.mpr ⟨hu1, by simp [h1]⟩
      rw [h] at this
      exact absurd this (List.not_mem_nil u)
  rw [dailyFetch, hfm]
  rfl

theorem dailySummary_parts (s : Store) (m : ℕ) (date : ℤ) (filt : Option ℕ)
    (hnd : ((s.users.filter (fun u => u.manager_id = some m)).map User.id).Nodup) :
    (dailySummary s m date filt).employee_breakdown =
      List.insertionSort byCheckinsDesc
        (((s.users.filter (fun u => u.manager_id = some m)).filter
            (fun u => !filtSkip filt u)).map
          (fun u => finalizeEntry (updMany (initEntry u)
            ((dailyFetch s m date filt).filter (fun c => c.employee_id = u.id))))) ∧
    (dailySummary s m date filt).team_summary.total_checkins =
      (dailyFetch s m date filt).length ∧
    (dailySummary s m date filt).team_summary.total_hours_worked =
      round2 (((dailyFetch s m date filt).map hoursOfRow).sum) ∧
    (dailySummary s m date filt).team_summary.average_distance_from_client =
      (if 0 < ((dailyFetch s m date filt).filterMap FetchedRow.distance_from_client).length
       then some (round2
        (((dailyFetch s m date filt).filterMap FetchedRow.distance_from_client).sum /
         ((((dailyFetch s m date filt).filterMap FetchedRow.distance_from_client).length : ℕ) : ℚ)))
       else none) := by
  by_cases hemp : (s.users.filter (fun u => u.manager_id = some m)).isEmpty = true
  · have hteam : s.users.filter (fun u => u.manager_id = some m) = [] := by
      simpa using hemp
    have hfetch : dailyFetch s m date filt = [] :=
      dailyFetch_nil_of_team_empty date filt hteam
    rw [hfetch, hteam]
    simp only [dailySummary, hteam, List.isEmpty_nil, if_pos, List.filter_nil,
      List.map_nil, List.length_nil, List.filterMap_nil, List.sum_nil, List.map_nil]
    and_intros <;> first | rfl | exact round2_zero.symm | simp
  · have hemp' : (s.users.filter (fun u => u.manager_id = some m)).isEmpty = false :=
      eq_false_of_ne_true hemp
    have hndk : (mapKeys (initMap (s.users.filter (fun u => u.manager_id = some m))
        filt)).Nodup := by
      rw [initMap_eq _ _ hnd, mapKeys, List.map_map]
      have hsub : (((s.users.filter (fun u => u.manager_id = some m)).filter
          (fun u => !filtSkip filt u)).map User.id).Sublist
          ((s.users.filter (fun u => u.manager_id = some m)).map User.id) :=
        List.Sublist.map _ (List.filter_sublist _)
      exact hnd.sublist hsub
    have hmemf : ∀ c ∈ dailyFetch s m date filt,
        memKey c.employee_id
          (initMap (s.users.filter (fun u => u.manager_id = some m)) filt) = true :=
      fun c hc => memKey_init_of_fetched hc
    have hfold := stepAll_fold (dailyFetch s m date filt)
      (initMap (s.users.filter (fun u => u.manager_id = some m)) filt)
      zeroTotals hndk hmemf
    simp only [dailySummary, hemp', Bool.false_eq_true, if_false]
    rw [hfold]
    refine ⟨?_, ?_, ?_, ?_⟩
    · rw [initMap_eq _ _ hnd, List.map_map, List.map_map]
      rfl
    · simp [accTotals, zeroTotals]
    · simp [accTotals, zeroTotals]
    · simp [accTotals, zeroTotals]

theorem filter_keep_none (team : List User) :
    team.filter (fun u => !filtSkip none u) = team := by
  simp [filtSkip]

theorem breakdown_mem {s : Store} {m : ℕ} {date : ℤ} {filt : Option ℕ}
    (hnd : ((s.users.filter (fun u => u.manager_id = some m)).map User.id).Nodup)
    {b : BEntry} (hb : b ∈ (dailySummary s m date filt).employee_breakdown) :
    ∃ u ∈ (s.users.filter (fun u => u.manager_id = some m)).filter
        (fun u => !filtSkip filt u),
      b = finalizeEntry (updMany (initEntry u)
        ((dailyFetch s m date filt).filter (fun c => c.employee_id = u.id))) := by
  rw [(dailySummary_parts s m date filt hnd).1] at hb
  rw [List.mem_insertionSort] at hb
  obtain ⟨u, hu, heq⟩ := List.mem_map.mp hb
  exact ⟨u, hu, heq.symm⟩

theorem finalize_updMany_fields (u : User) (rows : List FetchedRow) :
    (finalizeEntry (updMany (initEntry u) rows)).employee_id = u.id ∧
    (finalizeEntry (updMany (initEntry u) rows)).total_checkins = rows.length ∧
    (finalizeEntry (updMany (initEntry u) rows)).checkins = rows.map detailOf ∧
    (finalizeEntry (updMany (initEntry u) rows)).hours_worked =
      round2 ((rows.map hoursOfRow).sum) ∧
    (finalizeEntry (updMany (initEntry u) rows)).average_distance =
      (if 0 < (rows.filterMap FetchedRow.distance_from_client).length
       then some (round2 ((rows.filterMap FetchedRow.distance_from_client).sum /
         (((rows.filterMap FetchedRow.distance_from_client).length : ℕ) : ℚ)))
       else none) := by
  obtain ⟨e1, e2, e3, e4, e5, e6, e7, e8⟩ := updMany_spec rows (initEntry u)
  refine ⟨?_, ?_, ?_, ?_, ?_⟩
  · show (updMany (initEntry u) rows).employee_id = u.id
    rw [e1]; rfl
  · show (updMany (initEntry u) rows).total_checkins = rows.length
    rw [e4]; simp [initEntry]
  · show (updMany (initEntry u) rows).checkins = rows.map detailOf
    rw [e6]; rfl
  · show round2 (updMany (initEntry u) rows).hours_worked = _
    rw [e5]
    norm_num [initEntry]
  · show (if 0 < (updMany (initEntry u) rows).distance_count then
        some (round2 ((updMany (initEntry u) rows).total_distance /
          (((updMany (initEntry u) rows).distance_count : ℕ) : ℚ))) else none) = _
    rw [e7, e8]
    norm_num [initEntry]

/-- C5: without an employee filter, the daily-summary employee breakdown has
exactly one entry per team member (the entry ids are a permutation of the
team member ids, which are distinct): members with zero check-ins on the
date are included and their entries carry an empty checkin detail list, and
the breakdown is ordered by total_checkins descending. -/
theorem daily_summary_breakdown_complete_and_sorted
    (s : Store) (m : ℕ) (date : ℤ)
    (hnd : ((s.users.filter (fun u => u.manager_id = some m)).map User.id).Nodup) :
    ((dailySummary s m date none).employee_breakdown.map BEntry.employee_id).Perm
      ((s.users.filter (fun u => u.manager_id = some m)).map User.id) ∧
    (∀ b ∈ (dailySummary s m date none).employee_breakdown,
      b.total_checkins =
        ((dailyFetch s m date none).filter
          (fun c => c.employee_id = b.employee_id)).length ∧
      b.checkins =
        ((dailyFetch s m date none).filter
          (fun c => c.employee_id = b.employee_id)).map detailOf ∧
      (((dailyFetch s m date none).filter
          (fun c => c.employee_id = b.employee_id)) = [] → b.checkins = [])) ∧
    (dailySummary s m date none).employee_breakdown.Pairwise
      (fun b b' => b'.total_checkins ≤ b.total_checkins) := by
  have hparts := (dailySummary_parts s m date none hnd).1
  rw [filter_keep_none] at hparts
  refine ⟨?_, ?_, ?_⟩
  · rw [hparts]
    refine ((List.perm_insertionSort byCheckinsDesc _).map BEntry.employee_id).trans ?_
    rw [List.map_map]
    have heq : (s.users.filter (fun u => u.manager_id = some m)).map
        (BEntry.employee_id ∘ (fun u => finalizeEntry (updMany (initEntry u)
          ((dailyFetch s m date none).filter (fun c => c.employee_id = u.id))))) =
        (s.users.filter (fun u => u.manager_id = some m)).map User.id :=
      List.map_congr_left (fun u _ => (finalize_updMany_fields u _).1)
    rw [heq]
  · intro b hb
    obtain ⟨u, hu, hbe⟩ := breakdown_mem hnd hb
    obtain ⟨f1, f2, f3, f4, f5⟩ := finalize_updMany_fields u
      ((dailyFetch s m date none).filter (fun c => c.employee_id = u.id))
    subst hbe
    rw [f1]
    refine ⟨f2, f3, fun h => by rw [f3, h]; rfl⟩
  · rw [hparts]
    exact List.sorted_insertionSort byCheckinsDesc _

/-- C5 witness: the seeded store, manager 1, 2024-01-15 (day 19737): team
member ids are distinct, and the breakdown facts follow by applying the
theorem. -/
theorem daily_summary_breakdown_complete_and_sorted_witness :
    ((seedStore.users.filter (fun u => u.manager_id = some 1)).map User.id).Nodup ∧
    (((dailySummary seedStore 1 19737 none).employee_breakdown.map
        BEntry.employee_id).Perm
      ((seedStore.users.filter (fun u => u.manager_id = some 1)).map User.id) ∧
    (∀ b ∈ (dailySummary seedStore 1 19737 none).employee_breakdown,
      b.total_checkins =
        ((dailyFetch seedStore 1 19737 none).filter
          (fun c => c.employee_id = b.employee_id)).length ∧
      b.checkins =
        ((dailyFetch seedStore 1 19737 none).filter
          (fun c => c.employee_id = b.employee_id)).map detailOf ∧
      (((dailyFetch seedStore 1 19737 none).filter
          (fun c => c.employee_id = b.employee_id)) = [] → b.checkins = [])) ∧
    (dailySummary seedStore 1 19737 none).employee_breakdown.Pairwise
      (fun b b' => b'.total_checkins ≤ b.total_checkins)) :=
  ⟨by decide, daily_summary_breakdown_complete_and_sorted seedStore 1 19737 (by decide)⟩

/-- C6: in the daily summary, each check-in contributes hours worked equal
to checkout_time minus checkin_time (in hours) when the checkout time is
present and 0 otherwise (hoursOfRow); each breakdown entry carries the
employee total hours rounded to 2 decimals and the average of exactly the
non-null distance_from_client values rounded to 2 decimals (null when the
employee has none); and the team summary carries the same totals over all
fetched check-ins. -/
theorem daily_summary_hours_and_average_distance
    (s : Store) (m : ℕ) (date : ℤ) (filt : Option ℕ)
    (hnd : ((s.users.filter (fun u => u.manager_id = some m)).map User.id).Nodup) :
    (∀ b ∈ (dailySummary s m date filt).employee_breakdown,
      b.hours_worked = round2 ((((dailyFetch s m date filt).filter
        (fun c => c.employee_id = b.employee_id)).map hoursOfRow).sum) ∧
      b.average_distance =
        (if 0 < (((dailyFetch s m date filt).filter
            (fun c => c.employee_id = b.employee_id)).filterMap
            FetchedRow.distance_from_client).length
         then some (round2
          ((((dailyFetch s m date filt).filter
              (fun c => c.employee_id = b.employee_id)).filterMap
              FetchedRow.distance_from_client).sum /
           (((((dailyFetch s m date filt).filter
              (fun c => c.employee_id = b.employee_id)).filterMap
              FetchedRow.distance_from_client).length : ℕ) : ℚ)))
         else none)) ∧
    (dailySummary s m date filt).team_summary.total_checkins =
      (dailyFetch s m date filt).length ∧
    (dailySummary s m date filt).team_summary.total_hours_worked =
      round2 (((dailyFetch s m date filt).map hoursOfRow).sum) ∧
    (dailySummary s m date filt).team_summary.average_distance_from_client =
      (if 0 < ((dailyFetch s m date filt).filterMap
          FetchedRow.distance_from_client).length
       then some (round2
        (((dailyFetch s m date filt).filterMap FetchedRow.distance_from_client).sum /
         ((((dailyFetch s m date filt).filterMap
            FetchedRow.distance_from_client).length : ℕ) : ℚ)))
       else none) := by
  obtain ⟨-, h2, h3, h4⟩ := dailySummary_parts s m date filt hnd
  refine ⟨?_, h2, h3, h4⟩
  intro b hb
  obtain ⟨u, hu, hbe⟩ := breakdown_mem hnd hb
  obtain ⟨f1, f2, f3, f4, f5⟩ := finalize_updMany_fields u
    ((dailyFetch s m date filt).filter (fun c => c.employee_id = u.id))
  subst hbe
  rw [f1]
  exact ⟨f4, f5⟩

/-- C6 witness: the theorem applied at the seeded store, manager 1,
2024-01-15, no employee filter. -/
theorem daily_summary_hours_and_average_distance_witness :
    ((seedStore.users.filter (fun u => u.manager_id = some 1)).map User.id).Nodup ∧
    ((∀ b ∈ (dailySummary seedStore 1 19737 none).employee_breakdown,
      b.hours_worked = round2 ((((dailyFetch seedStore 1 19737 none).filter
        (fun c => c.employee_id = b.employee_id)).map hoursOfRow).sum) ∧
      b.average_distance =
        (if 0 < (((dailyFetch seedStore 1 19737 none).filter
            (fun c => c.employee_id = b.employee_id)).filterMap
            FetchedRow.distance_from_client).length
         then some (round2
          ((((dailyFetch seedStore 1 19737 none).filter
              (fun c => c.employee_id = b.employee_id)).filterMap
              FetchedRow.distance_from_client).sum /
           (((((dailyFetch seedStore 1 19737 none).filter
              (fun c => c.employee_id = b.employee_id)).filterMap
              FetchedRow.distance_from_client).length : ℕ) : ℚ)))
         else none)) ∧
    (dailySummary seedStore 1 19737 none).team_summary.total_checkins =
      (dailyFetch seedStore 1 19737 none).length ∧
    (dailySummary seedStore 1 19737 none).team_summary.total_hours_worked =
      round2 (((dailyFetch seedStore 1 19737 none).map hoursOfRow).sum) ∧
    (dailySummary seedStore 1 19737 none).team_summary.average_distance_from_client =
      (if 0 < ((dailyFetch seedStore 1 19737 none).filterMap
          FetchedRow.distance_from_client).length
       then some (round2
        (((dailyFetch seedStore 1 19737 none).filterMap
            FetchedRow.distance_from_client).sum /
         ((((dailyFetch seedStore 1 19737 none).filterMap
            FetchedRow.distance_from_client).length : ℕ) : ℚ)))
       else none)) :=
  ⟨by decide, daily_summary_hours_and_average_distance seedStore 1 19737 none (by decide)⟩
